import Mathlib

/-!
Shallow embedding of the core retry loop of `MTGQuerySystemAzure`
(src/src/llm.py) — the question → generate SPARQL → execute → compose answer
→ validate → retry state machine — together with theorems settling the
frozen claims about it.

The two external capabilities (the rdflib graph store and the Azure OpenAI
model provider) are modelled as oracles fixed per session:
  * the store is a function from a query string to either an ordered list of
    result rows or a raised exception carrying a message;
  * the model's behaviour at attempt `i` is given by per-attempt oracles for
    (a) the parsed structured query call (or the absence of one), (b) the
    composed natural-language answer, and (c) the raw validator payload,
    which either parses to a verdict dict or does not.
Python dicts that omit keys in some branches are embedded with `Option`
fields, and each dict access the source performs on a possibly-missing key
is embedded as an `Except` that raises `KeyError`, so that unhandled
exceptions of the source are visible as `Except.error` outcomes.
-/

namespace MtgRdf

/-- One result row of a SPARQL query: variable-name/value bindings in the
order the store returns them (`{str(var): str(row[var]) for var in results.vars}`). -/
abbrev Row := List (String × String)

/-- A Python exception escaping as an unhandled error: the exception class
and the offending key/message. -/
structure PyErr where
  name : String
  msg : String
deriving Repr, DecidableEq

/-- The execution dict: the dict returned by `execute_sparql`
(src/src/llm.py:55-76) and the inline dict recorded on a generation miss
(src/src/llm.py:291). A field is `none` exactly when the corresponding
branch of the source omits the key from the dict (Python then raises
`KeyError` on access): the `except` branch of `execute_sparql` sets no
`"count"` key, and the generation-miss dict sets no `"error"`/`"query"` keys. -/
structure ExecDict where
  success : Bool
  count : Option Nat
  results : List Row
  error : Option String
  query : Option String
deriving Repr, DecidableEq

/-- Behaviour of the graph store on one query string: either an ordered
list of rows (possibly empty) or a raised exception with message `msg`. -/
inductive StoreResp where
  | rows (rs : List Row)
  | fault (msg : String)
deriving Repr, DecidableEq

/-- Embedding of `MTGQuerySystemAzure.execute_sparql` (src/src/llm.py:55-76).
The `try` branch returns the success dict with `count = len(result_list)`;
the `except` branch catches any store exception and returns the failure
dict — which carries `error` and an empty `results` but no `count` key. -/
def execute_sparql (store : String → StoreResp) (q : String) : ExecDict :=
  match store q with
  | .rows rs =>
    { success := true, count := some rs.length, results := rs,
      error := none, query := some q }
  | .fault e =>
    { success := false, count := none, results := [],
      error := some e, query := some q }

/-- The validation dict parsed from the validator's JSON payload.  Every
field is optional: the source only ever reads `"satisfactory"` inside the
`try`, and reads `"reason"`/`"missing"`/`"suggestion"` later with plain or
defaulted access. -/
structure VDict where
  satisfactory : Option Bool
  reason : Option String
  missing : Option String
  suggestion : Option String
deriving Repr, DecidableEq

/-- The raw validator payload: either it parses into a verdict dict or it
does not (`json.loads` raises). -/
inductive ValPayload where
  | unparseable
  | parsed (v : VDict)
deriving Repr, DecidableEq

/-- The fallback verdict built in the bare `except` of `validate_answer`
(src/src/llm.py:128): `(True, {"reason": "Could not validate"})`. -/
def defaultVerdict : VDict :=
  { satisfactory := none, reason := some ("Could not validate"),
    missing := none, suggestion := none }

/-- Embedding of the result-parsing tail of `validate_answer`
(src/src/llm.py:124-128): `json.loads` + `validation["satisfactory"]`
inside a `try`; any failure (unparseable payload, or a parsed payload with
no `"satisfactory"` key) is swallowed and the default satisfactory verdict
is returned instead. -/
def validate_answer (payload : ValPayload) : Bool × VDict :=
  match payload with
  | .unparseable => (true, defaultVerdict)
  | .parsed v =>
    match v.satisfactory with
    | some b => (b, v)
    | none => (true, defaultVerdict)

/-- One attempt record, the dict built by `_single_attempt`
(src/src/llm.py:282-292), possibly later extended in place with
`"answer"`/`"validation"` keys by `query_with_retry` (src/src/llm.py:170-171). -/
structure AttemptRec where
  sparql : Option String
  reasoning : String
  execution : ExecDict
  answer : Option String
  validation : Option VDict
deriving Repr, DecidableEq

/-- A role-tagged conversation turn. -/
structure Msg where
  role : String
  content : String
deriving Repr, DecidableEq

/-- How a Python f-string renders a value that may be `None`: the string
itself, or the text `None`. -/
def pyStr : Option String → String
  | some s => s
  | none => "None"

/-- The issue line appended for one prior attempt when no unsatisfactory
validation verdict is recorded on it (the `elif` chain of `_build_context`,
src/src/llm.py:307-310).  Python first evaluates
`attempt['execution']['count'] == 0`, which raises `KeyError` when the
execution dict has no `"count"` key; only otherwise does it test `success`. -/
def execBranch (base : String) (ex : ExecDict) : Except PyErr String :=
  match ex.count with
  | none => .error { name := "KeyError", msg := "count" }
  | some c =>
    if c = 0 then .ok (base ++ "\nIssue: Returned no results")
    else if ex.success = false then
      .ok (base ++ "\nError: " ++ ex.error.getD ("Unknown"))
    else .ok base

/-- The context block `_build_context` emits for one prior attempt
(src/src/llm.py:300-310).  The `"sparql"` key is always present on an
attempt record, so `attempt.get('sparql', 'N/A')` renders its value (the
query text, or `None`).  When the attempt carries a validation dict whose
`"satisfactory"` is falsy, the reason/suggestion lines are emitted —
`attempt['validation']['reason']` raising `KeyError` when absent. -/
def contextForAttempt (i : Nat) (a : AttemptRec) : Except PyErr String :=
  let base := "\n\nAttempt " ++ toString (i + 1) ++ ":" ++ "\nQuery: " ++ pyStr a.sparql
  match a.validation with
  | some v =>
    if v.satisfactory.getD true then execBranch base a.execution
    else
      match v.reason with
      | none => .error { name := "KeyError", msg := "reason" }
      | some r =>
        .ok (base ++ "\nIssue: " ++ r ++ "\nSuggestion: " ++ v.suggestion.getD ("N/A"))
  | none => execBranch base a.execution

/-- The fixed corrective-heuristics tail `_build_context` appends after the
per-attempt blocks (src/src/llm.py:312-316). -/
def contextTail : String :=
  "\n\nPlease try a different approach. Consider:" ++
  "\n- Check spelling and case sensitivity" ++
  "\n- Use FILTER with CONTAINS for partial matches" ++
  "\n- Try different predicates" ++
  "\n- Use OPTIONAL for properties that might not exist"

/-- The `for i, attempt in enumerate(previous_attempts)` loop of
`_build_context`, concatenating the per-attempt blocks, starting the
numbering at `i`. -/
def foldContext : Nat → List AttemptRec → Except PyErr String
  | _, [] => .ok ""
  | i, a :: rest => do
    let s ← contextForAttempt i a
    let r ← foldContext (i + 1) rest
    .ok (s ++ r)

/-- Embedding of `MTGQuerySystemAzure._build_context` (src/src/llm.py:294-318):
the question alone for the first attempt, and otherwise the question, a
header, one block per prior attempt, and the fixed heuristics tail. -/
def _build_context (question : String) (previous_attempts : List AttemptRec) :
    Except PyErr String :=
  match previous_attempts with
  | [] => .ok ("User question: " ++ question)
  | _ => do
    let body ← foldContext 0 previous_attempts
    .ok ("User question: " ++ question ++ "\n\nPrevious attempts that didn\x27t work:"
      ++ body ++ contextTail)

/-- Embedding of `MTGQuerySystemAzure._prepare_retry_context`
(src/src/llm.py:320-334): copies the history and appends one assistant turn
and one user turn.  The `"sparql"` key is always present on the record, so
`last_result.get('sparql', 'No query generated')` renders its value (the
query text, or `None` on a generation miss). -/
def _prepare_retry_context (last_result : AttemptRec) (history : List Msg) : List Msg :=
  history ++
    [ { role := "assistant",
        content := "I tried this query but got no results: " ++ pyStr last_result.sparql },
      { role := "user",
        content := "The query returned no results. Please try a different approach using partial matching, case-insensitive search, or broader criteria." } ]

/-- Embedding of `MTGQuerySystemAzure._prepare_retry_with_feedback`
(src/src/llm.py:336-355): copies the history and appends one assistant turn
(interpolating `last_result['execution']['count']`) and one user turn
(interpolating `validation['reason']` and the defaulted
`missing`/`suggestion` fields).  The two plain accesses raise `KeyError`
when the key is absent. -/
def _prepare_retry_with_feedback (last_result : AttemptRec) (validation : VDict)
    (history : List Msg) : Except PyErr (List Msg) :=
  match last_result.execution.count with
  | none => .error { name := "KeyError", msg := "count" }
  | some c =>
    match validation.reason with
    | none => .error { name := "KeyError", msg := "reason" }
    | some r =>
      .ok (history ++
        [ { role := "assistant",
            content := "My query returned " ++ toString c ++ " results but didn\x27t fully answer the question." },
          { role := "user",
            content := "The answer wasn\x27t satisfactory. \n            Issue: " ++ r ++
              "\n            Missing: " ++ validation.missing.getD ("Not specified") ++
              "\n            Suggestion: " ++ validation.suggestion.getD ("Try a different approach") ++
              "\n            \n            Please generate a new query that addresses these issues." } ])

/-- The execution dict recorded when the model declines to emit a function
call (src/src/llm.py:291): `{"success": False, "count": 0, "results": []}`. -/
def genMissExec : ExecDict :=
  { success := false, count := some 0, results := [], error := none, query := none }

/-- The attempt record returned by `_single_attempt` on a generation miss
(src/src/llm.py:288-292). -/
def genMissRec : AttemptRec :=
  { sparql := none, reasoning := "No query generated", execution := genMissExec,
    answer := none, validation := none }

/-- Embedding of `MTGQuerySystemAzure._single_attempt` (src/src/llm.py:206-292).
The model's reply is the oracle value `gen`: `some (query, reasoning)` when it
made the structured `execute_sparql` function call (with those parsed
arguments), `none` when it replied without one.  After executing the query,
the source prints `execution_result['count']` (src/src/llm.py:280), which
raises `KeyError` when `execute_sparql` returned its failure dict. -/
def _single_attempt (store : String → StoreResp) (gen : Option (String × String)) :
    Except PyErr AttemptRec :=
  match gen with
  | none => .ok genMissRec
  | some (q, reas) =>
    let ex := execute_sparql store q
    match ex.count with
    | none => .error { name := "KeyError", msg := "count" }
    | some _ =>
      .ok { sparql := some q, reasoning := reas, execution := ex,
            answer := none, validation := none }

/-- The schema digest computed once at initialization
(`extract_schema`, src/src/llm.py:31-53). -/
structure Schema where
  predicates : List String
  sample_cards : List String
deriving Repr, DecidableEq

/-- The predicate-sampling SPARQL text of `extract_schema`
(src/src/llm.py:34-38), verbatim including its `LIMIT 100`. -/
def pred_query : String :=
  "\n        SELECT DISTINCT ?predicate WHERE \x7b\n            ?s ?predicate ?o\n        \x7d LIMIT 100\n        "

/-- The sample-card SPARQL text of `extract_schema` (src/src/llm.py:42-47),
verbatim including its `LIMIT 5`. -/
def sample_query : String :=
  "\n        SELECT ?card ?name WHERE \x7b\n            ?card :name ?name .\n            FILTER(CONTAINS(LCASE(?name), \"counterspell\"))\n        \x7d LIMIT 5\n        "

/-- Embedding of `MTGQuerySystemAzure.extract_schema` (src/src/llm.py:31-53).
The graph store's answer to each fixed query text is the oracle `g`, a row
being the list of its stringified values; the digest keeps every predicate
the store returns (the bound of 100 lives in the query text, not here), and
the first projection/second projection of each row mirror `row[0]`/`row[1]`. -/
def extract_schema (g : String → List (List String)) : Schema :=
  let predicates := (g pred_query).map (fun row => row.getD 0 (""))
  let samples := g sample_query
  { predicates := predicates,
    sample_cards := if samples.isEmpty then [] else samples.map (fun row => row.getD 1 ("")) }

/-- The system-prompt text `_single_attempt` builds for query generation
(src/src/llm.py:231-246): it interpolates
`', '.join(self.schema['predicates'][:30])` and
`', '.join(self.schema['sample_cards'])` into the fixed instructions. -/
def system_prompt (schema : Schema) : String :=
  "You are a SPARQL query expert for an MTG card database.\n                \n                Database schema:\n                Predicates: " ++
  String.intercalate (", ") (schema.predicates.take 30) ++
  "\n                Sample cards: " ++
  String.intercalate (", ") schema.sample_cards ++
  "\n                \n                When searching for \"versions\" of a card, look for:\n                - Different sets/editions (using :set, :setCode, :printings predicates)\n                - Each unique combination of card + set is a different version\n                - Use GROUP BY and COUNT for aggregations\n                "

/-- The terminal outcome of `query_with_retry`: the success dict of
src/src/llm.py:175-181 or the exhaustion dict of src/src/llm.py:199-204. -/
inductive Outcome where
  | success (answer : String) (attempts : Nat) (final_query : Option String) (results : List Row)
  | failure (answer : String) (attempts : Nat) (all_attempts : List AttemptRec)
deriving Repr, DecidableEq

/-- The `"attempts"` field of the outcome dict. -/
def Outcome.attemptsTaken : Outcome → Nat
  | .success _ n _ _ => n
  | .failure _ n _ => n

/-- The `"all_attempts"` list of the exhaustion dict (the success dict
carries none). -/
def Outcome.recorded : Outcome → List AttemptRec
  | .success _ _ _ _ => []
  | .failure _ _ l => l

/-- The external behaviour driving one session: the store, and the model
provider's reply at each attempt index — the structured query call (or its
absence), the composed answer, and the raw validator payload. -/
structure Oracles where
  store : String → StoreResp
  gen : Nat → Option (String × String)
  compose : Nat → String
  valPayload : Nat → ValPayload

/-- The fixed failure answer of the exhaustion dict (src/src/llm.py:201). -/
def exhaustedAnswer : String :=
  "Unable to find satisfactory results after multiple attempts."

/-- The short-circuit loop condition
`result["execution"]["success"] and result["execution"]["count"] > 0`
(src/src/llm.py:154): `count` is only read — and can only raise — when
`success` is truthy. -/
def meaningfulResults (ex : ExecDict) : Except PyErr Bool :=
  if ex.success then
    match ex.count with
    | none => .error { name := "KeyError", msg := "count" }
    | some c => .ok (decide (0 < c))
  else .ok false

/-- The `for attempt in range(self.max_retries)` loop of `query_with_retry`
(src/src/llm.py:135-204), with `fuel` the number of loop iterations left
(`fuel = max_retries - attempt`).  Each iteration builds the context from
all prior attempts, runs `_single_attempt`, appends the record, and either
terminates with the success dict, retries with feedback, retries after a
no-result/failed execution, or — when the range is exhausted — returns the
exhaustion dict.  In the unsatisfactory branch the source first prints
`validation_details['reason']` (src/src/llm.py:183), so a parsed verdict
lacking a `"reason"` key raises `KeyError` there.  The source appends
`result` to `all_attempts` before mutating it in place with the
`"answer"`/`"validation"` keys (src/src/llm.py:151,170-171); since both
names alias one dict, the recorded attempt carries those keys, which the
embedding renders by appending the extended record. -/
def retryLoop (o : Oracles) (question : String) (max_retries : Nat) :
    Nat → Nat → List Msg → List AttemptRec → Except PyErr Outcome
  | 0, _, _, all_attempts =>
    .ok (.failure exhaustedAnswer max_retries all_attempts)
  | fuel + 1, attempt, history, all_attempts => do
    let _ctx ← _build_context question all_attempts
    let result ← _single_attempt o.store (o.gen attempt)
    match meaningfulResults result.execution with
    | .error e => .error e
    | .ok true =>
      let answer := o.compose attempt
      let vr := validate_answer (o.valPayload attempt)
      let result2 : AttemptRec :=
        { result with answer := some answer, validation := some vr.2 }
      let all2 := all_attempts ++ [result2]
      if vr.1 then
        .ok (.success answer (attempt + 1) result2.sparql result2.execution.results)
      else
        match vr.2.reason with
        | none => .error { name := "KeyError", msg := "reason" }
        | some _ =>
          if attempt < max_retries - 1 then do
            let history2 ← _prepare_retry_with_feedback result2 vr.2 history
            retryLoop o question max_retries fuel (attempt + 1) history2 all2
          else
            retryLoop o question max_retries fuel (attempt + 1) history all2
    | .ok false =>
      let all2 := all_attempts ++ [result]
      if attempt < max_retries - 1 then
        retryLoop o question max_retries fuel (attempt + 1)
          (_prepare_retry_context result history) all2
      else
        retryLoop o question max_retries fuel (attempt + 1) history all2

/-- Embedding of `MTGQuerySystemAzure.query_with_retry` (src/src/llm.py:130-204):
run the retry loop from attempt 0 with empty history and no recorded
attempts, with `max_retries` iterations available. -/
def query_with_retry (o : Oracles) (question : String) (max_retries : Nat) :
    Except PyErr Outcome :=
  retryLoop o question max_retries max_retries 0 [] []

/-- The constructor default `max_retries=3` (src/src/llm.py:7). -/
def default_max_retries : Nat := 3

/-- `s` occurs literally (contiguously) inside `t`. -/
def strContains (s t : String) : Prop :=
  ∃ u v : List Char, t.data = u ++ s.data ++ v

theorem strContains_refl (s : String) : strContains s s :=
  ⟨[], [], by simp⟩

theorem strContains_append_left (w : String) {s t : String} (h : strContains s t) :
    strContains s (w ++ t) := by
  obtain ⟨u, v, hv⟩ := h
  refine ⟨w.data ++ u, v, ?_⟩
  show w.data ++ t.data = _
  rw [hv]
  simp

theorem strContains_append_right (w : String) {s t : String} (h : strContains s t) :
    strContains s (t ++ w) := by
  obtain ⟨u, v, hv⟩ := h
  refine ⟨u, v ++ w.data, ?_⟩
  show t.data ++ w.data = _
  rw [hv]
  simp

/-- Shared bound on the loop: from any loop state, an `Except.ok` outcome has a
success attempt count of at most `attempt + fuel`, and an exhaustion outcome
carries exactly `max_retries` as its count and one recorded attempt per
consumed unit of fuel. -/
theorem retryLoop_bounds (o : Oracles) (question : String) (max_retries : Nat)
    (fuel : Nat) :
    ∀ attempt history all_attempts out,
      retryLoop o question max_retries fuel attempt history all_attempts = Except.ok out →
      (∀ a n fq rs, out = .success a n fq rs → n ≤ attempt + fuel) ∧
      (∀ a n l, out = .failure a n l → n = max_retries ∧ l.length = all_attempts.length + fuel) := by
  induction fuel with
  | zero =>
    intro attempt history all_attempts out h
    simp only [retryLoop, Except.ok.injEq] at h
    subst h
    constructor
    · intro a n fq rs h
      cases h
    · intro a n l h
      cases h
      simp
  | succ fuel ih =>
    intro attempt history all_attempts out h
    simp only [retryLoop] at h
    cases hctx : _build_context question all_attempts with
    | error e => simp [hctx, Except.bind, bind] at h
    | ok ctx =>
      rw [hctx] at h
      cases hsa : _single_attempt o.store (o.gen attempt) with
      | error e => simp [hsa, Except.bind, bind] at h
      | ok result =>
        rw [hsa] at h
        simp only [Except.bind, bind] at h
        cases hmr : meaningfulResults result.execution with
        | error e => rw [hmr] at h; cases h
        | ok b =>
          rw [hmr] at h
          cases b with
          | true =>
            simp only at h
            by_cases hs : (validate_answer (o.valPayload attempt)).1
            · simp only [hs, if_true] at h
              cases h
              constructor
              · intro a n fq rs heq
                cases heq
                omega
              · intro a n l heq
                cases heq
            · simp only [hs, if_false] at h
              cases hr : (validate_answer (o.valPayload attempt)).2.reason with
              | none => rw [hr] at h; cases h
              | some r =>
                rw [hr] at h
                simp only [Except.bind, bind] at h
                by_cases hlt : attempt < max_retries - 1
                · simp only [hlt, if_true] at h
                  cases hpf : _prepare_retry_with_feedback
                      { result with
                        answer := some (o.compose attempt),
                        validation := some (validate_answer (o.valPayload attempt)).2 }
                      (validate_answer (o.valPayload attempt)).2 history with
                  | error e => rw [hpf] at h; cases h
                  | ok history2 =>
                    rw [hpf] at h
                    simp only at h
                    have hb := ih (attempt + 1) _ _ out h
                    constructor
                    · intro a n fq rs heq
                      have := hb.1 a n fq rs heq
                      omega
                    · intro a n l heq
                      obtain ⟨h1, h2⟩ := hb.2 a n l heq
                      refine ⟨h1, ?_⟩
                      simp only [List.length_append, List.length_cons, List.length_nil] at h2
                      omega
                · simp only [hlt, if_false] at h
                  have hb := ih (attempt + 1) _ _ out h
                  constructor
                  · intro a n fq rs heq
                    have := hb.1 a n fq rs heq
                    omega
                  · intro a n l heq
                    obtain ⟨h1, h2⟩ := hb.2 a n l heq
                    refine ⟨h1, ?_⟩
                    simp only [List.length_append, List.length_cons, List.length_nil] at h2
                    omega
          | false =>
            simp only at h
            by_cases hlt : attempt < max_retries - 1
            · simp only [hlt, if_true] at h
              have hb := ih (attempt + 1) _ _ out h
              constructor
              · intro a n fq rs heq
                have := hb.1 a n fq rs heq
                omega
              · intro a n l heq
                obtain ⟨h1, h2⟩ := hb.2 a n l heq
                refine ⟨h1, ?_⟩
                simp only [List.length_append, List.length_cons, List.length_nil] at h2
                omega
            · simp only [hlt, if_false] at h
              have hb := ih (attempt + 1) _ _ out h
              constructor
              · intro a n fq rs heq
                have := hb.1 a n fq rs heq
                omega
              · intro a n l heq
                obtain ⟨h1, h2⟩ := hb.2 a n l heq
                refine ⟨h1, ?_⟩
                simp only [List.length_append, List.length_cons, List.length_nil] at h2
                omega

/-- C1: for every session, if the loop reaches an attempt (any loop state with
fuel left and a context that builds) whose execution yields a successful
result with a positive row count and whose validator verdict is
satisfactory, then the loop terminates at that attempt with the success
outcome carrying the composed answer, the attempt count `index + 1`, the
query used, and the full (uncapped) result rows — independent of the
remaining fuel, so no further attempt is performed. -/
theorem C1_satisfactory_success_terminates (o : Oracles) (question : String)
    (max_retries fuel attempt : Nat) (history : List Msg) (all_attempts : List AttemptRec)
    (ctx qy reas : String) (rs : List Row) (v : VDict)
    (hctx : _build_context question all_attempts = .ok ctx)
    (hgen : o.gen attempt = some (qy, reas))
    (hstore : o.store qy = .rows rs)
    (hrows : 0 < rs.length)
    (hval : validate_answer (o.valPayload attempt) = (true, v)) :
    retryLoop o question max_retries (fuel + 1) attempt history all_attempts =
      .ok (.success (o.compose attempt) (attempt + 1) (some qy) rs) := by
  simp only [retryLoop, hctx, hgen, _single_attempt, execute_sparql, hstore,
    meaningfulResults, hval, Except.bind, bind]
  simp [hrows, Nat.pos_iff_ne_zero.mp hrows, hval]

/-- The oracles of the C1 witness run: one row, a satisfactory verdict. -/
def c1Oracles : Oracles :=
  { store := fun _ => .rows [[(("name"), ("Counterspell"))]],
    gen := fun _ => some (("SELECT"), ("find")),
    compose := fun _ => "one card",
    valPayload := fun _ => .parsed ⟨some true, some ("ok"), none, none⟩ }

theorem C1_satisfactory_success_terminates_witness :
    _build_context ("q") [] = Except.ok ("User question: q") ∧
    c1Oracles.gen 0 = some (("SELECT"), ("find")) ∧
    c1Oracles.store ("SELECT") = StoreResp.rows [[(("name"), ("Counterspell"))]] ∧
    0 < [[(("name"), ("Counterspell"))]].length ∧
    validate_answer (c1Oracles.valPayload 0) = (true, ⟨some true, some ("ok"), none, none⟩) ∧
    retryLoop c1Oracles ("q") 3 3 0 [] [] =
      Except.ok (Outcome.success ("one card") 1 (some ("SELECT")) [[(("name"), ("Counterspell"))]]) :=
  ⟨rfl, rfl, rfl, by decide, rfl,
    C1_satisfactory_success_terminates c1Oracles ("q") 3 2 0 [] [] ("User question: q")
      ("SELECT") ("find") [[(("name"), ("Counterspell"))]] ⟨some true, some ("ok"), none, none⟩
      rfl rfl rfl (by decide) rfl⟩

/-- C3: for every session that terminates (success or exhaustion), the
attempt count the outcome carries is at most `max_retries`, and the recorded
attempt list carried by an exhaustion outcome also has length at most
`max_retries`. -/
theorem C3_attempts_bounded (o : Oracles) (question : String) (max_retries : Nat)
    (out : Outcome) (h : query_with_retry o question max_retries = Except.ok out) :
    out.attemptsTaken ≤ max_retries ∧ out.recorded.length ≤ max_retries := by
  have hb := retryLoop_bounds o question max_retries max_retries 0 [] [] out h
  cases out with
  | success a n fq rs =>
    have := hb.1 a n fq rs rfl
    simp only [Outcome.attemptsTaken, Outcome.recorded, List.length_nil]
    omega
  | failure a n l =>
    obtain ⟨h1, h2⟩ := hb.2 a n l rfl
    simp only [Outcome.attemptsTaken, Outcome.recorded]
    simp only [List.length_nil, Nat.zero_add] at h2
    omega

/-- The oracles of the C3 witness run: the model never emits a query call,
so every attempt is a generation miss and the session exhausts. -/
def c3Oracles : Oracles :=
  { store := fun _ => .rows [],
    gen := fun _ => none,
    compose := fun _ => "",
    valPayload := fun _ => .unparseable }

theorem C3_attempts_bounded_witness :
    query_with_retry c3Oracles ("q") 3 =
      Except.ok (Outcome.failure exhaustedAnswer 3 [genMissRec, genMissRec, genMissRec]) ∧
    (Outcome.failure exhaustedAnswer 3 [genMissRec, genMissRec, genMissRec]).attemptsTaken ≤ 3 ∧
    (Outcome.failure exhaustedAnswer 3 [genMissRec, genMissRec, genMissRec]).recorded.length ≤ 3 :=
  ⟨rfl, (C3_attempts_bounded c3Oracles ("q") 3 _ rfl).1,
    (C3_attempts_bounded c3Oracles ("q") 3 _ rfl).2⟩

/-- The oracles of the C2 failing run: the model emits a query on every
attempt and the store raises a syntax fault on every query. -/
def c2Oracles : Oracles :=
  { store := fun _ => .fault ("syntax error"),
    gen := fun _ => some (("SELECT * WHERE"), ("try a join")),
    compose := fun _ => "",
    valPayload := fun _ => .unparseable }

/-- C2: code bug — the claim promises that a session in which every attempt
yields Failed / zero rows / an unsatisfactory verdict exhausts after exactly
`max_retries` recorded attempts, but when an attempt's execution fails the
source instead raises an unhandled `KeyError`: `execute_sparql`'s failure
dict carries no `"count"` key, and `_single_attempt` reads
`execution_result['count']` for its result-count print (src/src/llm.py:280).
This theorem evaluates the session at a failing input of the claim (default
`max_retries = 3`, store faulting on every attempt, an instance of the
claim's hypothesis): the outcome is the escaped `KeyError`, not an
`Exhausted` outcome with 3 recorded attempts. -/
theorem C2_exhaustion_broken_by_store_fault :
    query_with_retry c2Oracles ("how many versions of counterspell exist")
        default_max_retries =
      Except.error { name := "KeyError", msg := "count" } ∧
    (execute_sparql c2Oracles.store ("SELECT * WHERE")).count = none :=
  ⟨rfl, rfl⟩

/-- C4 counterexample: the default verdict substituted for an unparseable
validator payload carries reason "Could not validate", not the
"validation unavailable" the claim states. -/
theorem C4_reason_text_counterexample :
    (validate_answer ValPayload.unparseable).2.reason ≠ some ("validation unavailable") := by
  simp [validate_answer, defaultVerdict]

/-- C4 (amended): for every validator payload that cannot be parsed into the
verdict shape — the raw text is not JSON, or the parsed object has no
`satisfactory` field — `validate_answer` does not raise and returns the
default verdict `satisfactory = true` with reason "Could not validate", so a
malformed validator payload never aborts the session and the loop proceeds
as though satisfied. -/
theorem C4_parse_failure_default_verdict (payload : ValPayload)
    (h : payload = .unparseable ∨ ∃ v, payload = .parsed v ∧ v.satisfactory = none) :
    validate_answer payload = (true, defaultVerdict) ∧
    defaultVerdict.reason = some ("Could not validate") := by
  rcases h with h | ⟨v, hp, hs⟩
  · subst h
    exact ⟨rfl, rfl⟩
  · subst hp
    refine ⟨?_, rfl⟩
    simp [validate_answer, hs]

theorem C4_parse_failure_default_verdict_witness :
    (ValPayload.unparseable = ValPayload.unparseable ∨
      ∃ v, ValPayload.unparseable = ValPayload.parsed v ∧ v.satisfactory = none) ∧
    validate_answer ValPayload.unparseable = (true, defaultVerdict) ∧
    defaultVerdict.reason = some ("Could not validate") :=
  ⟨Or.inl rfl,
    (C4_parse_failure_default_verdict ValPayload.unparseable (Or.inl rfl)).1,
    (C4_parse_failure_default_verdict ValPayload.unparseable (Or.inl rfl)).2⟩

/-- C5 counterexample: on a generation miss the recorded execution dict has
`success = False` — not the successful Ok-with-zero-rows record the claim
states. -/
theorem C5_genmiss_not_ok_counterexample :
    _single_attempt (fun _ => StoreResp.rows []) none = Except.ok genMissRec ∧
    genMissRec.execution.success ≠ true :=
  ⟨rfl, by simp [genMissRec, genMissExec]⟩

/-- C5 (amended): for every attempt in which the model responds without
invoking the structured query call, the attempt's execution record is
`success = false` with `count = 0` (and no error or query fields), no
exception is thrown, and the loop proceeds to retry logic exactly as if zero
rows were returned: the loop condition evaluates to false without raising,
and the context block built from the attempt reports
"Issue: Returned no results" — the zero-row message, not the error one. -/
theorem C5_generation_miss_zero_rows (store : String → StoreResp) (i : Nat) :
    _single_attempt store none = Except.ok genMissRec ∧
    genMissRec.execution.success = false ∧
    genMissRec.execution.count = some 0 ∧
    meaningfulResults genMissRec.execution = .ok false ∧
    contextForAttempt i genMissRec =
      .ok ("\n\nAttempt " ++ toString (i + 1) ++ ":" ++ "\nQuery: " ++ "None"
        ++ "\nIssue: Returned no results") := by
  refine ⟨rfl, rfl, rfl, rfl, ?_⟩
  simp [contextForAttempt, execBranch, genMissRec, genMissExec, pyStr]

/-- The oracles of the C6 failing run: the store raises a fault on every
attempt's query. -/
def c6Oracles : Oracles :=
  { store := fun _ => .fault ("Expected SelectQuery, found end of text"),
    gen := fun _ => some (("SELECT ?card WHERE"), ("look up the card")),
    compose := fun _ => "",
    valPayload := fun _ => .unparseable }

/-- C6: code bug — the claim promises that when the store raises a fault on
every attempt the session exhausts with `max_retries` recorded Failed
attempts whose error text is folded into later contexts, and that no
unhandled error escapes.  In the source the fault's error text is indeed
preserved in `execute_sparql`'s failure dict, but that dict carries no
`"count"` key, so the very first faulting attempt raises an unhandled
`KeyError` at the result-count print (src/src/llm.py:280) before the attempt
is even recorded — and the error branch of `_build_context`
(src/src/llm.py:309-310) that would fold the error text into the next
context is unreachable.  This theorem evaluates the session at the failing
input: the outcome is the escaped `KeyError`, and the fault's text sits in
the never-recorded failure dict. -/
theorem C6_store_fault_escapes_keyerror :
    query_with_retry c6Oracles ("scenario b question") 2 =
      Except.error { name := "KeyError", msg := "count" } ∧
    (execute_sparql c6Oracles.store ("SELECT ?card WHERE")).error =
      some ("Expected SelectQuery, found end of text") ∧
    (execute_sparql c6Oracles.store ("SELECT ?card WHERE")).count = none :=
  ⟨rfl, rfl, rfl⟩

/-- C7: for every query string, `execute_sparql` is total (a Lean function
into `ExecDict`, so a store-level fault never escapes it as an unhandled
error): a raised store fault is caught and converted into the failure dict
carrying the fault's message, while a query that succeeds with zero rows
yields a success dict with `success = true` and `count = 0` — distinct from
the failure dict, whose `success` is `false`. -/
theorem C7_executor_catches_faults (store : String → StoreResp) (q : String) :
    (∀ e, store q = .fault e →
      execute_sparql store q =
        { success := false, count := none, results := [],
          error := some e, query := some q }) ∧
    (∀ rs, store q = .rows rs →
      (execute_sparql store q).success = true ∧
      (execute_sparql store q).count = some rs.length ∧
      (execute_sparql store q).results = rs) := by
  constructor
  · intro e he
    unfold execute_sparql
    rw [he]
  · intro rs hrs
    unfold execute_sparql
    rw [hrs]
    exact ⟨rfl, rfl, rfl⟩

/-- The store of the C7 witness: faults on one query, returns zero rows on
every other. -/
def c7Store : String → StoreResp :=
  fun q => if q = "bad query" then .fault ("engine error") else .rows []

/-- Every block `execBranch` accepts extends its `base` on the right (or
returns it unchanged), so anything contained in the base stays contained. -/
theorem execBranch_contains {base : String} {ex : ExecDict} {s t : String}
    (hb : strContains s base) (h : execBranch base ex = .ok t) : strContains s t := by
  unfold execBranch at h
  split at h
  · cases h
  · split at h
    · cases h
      exact strContains_append_right _ hb
    · split at h
      · cases h
        exact strContains_append_right _ (strContains_append_right _ hb)
      · cases h
        exact hb

/-- The context block built for one prior attempt contains that attempt's
query text whenever the attempt generated a query. -/
theorem contextForAttempt_contains {i : Nat} {a : AttemptRec} {s t : String}
    (hq : a.sparql = some s) (h : contextForAttempt i a = .ok t) :
    strContains s t := by
  have hb : strContains s
      ("\n\nAttempt " ++ toString (i + 1) ++ ":" ++ "\nQuery: " ++ pyStr a.sparql) := by
    rw [hq]
    exact strContains_append_left _ (strContains_refl s)
  unfold contextForAttempt at h
  cases hv : a.validation with
  | none =>
    rw [hv] at h
    simp only at h
    exact execBranch_contains hb h
  | some v =>
    rw [hv] at h
    simp only at h
    split at h
    · exact execBranch_contains hb h
    · split at h
      · cases h
      · cases h
        exact strContains_append_right _ (strContains_append_right _
          (strContains_append_right _ (strContains_append_right _ hb)))

/-- The concatenation of per-attempt context blocks contains the query text
of every enumerated attempt that generated one. -/
theorem foldContext_contains {atts : List AttemptRec} {i j : Nat} {s body : String}
    (h : foldContext i atts = .ok body) (hj : j < atts.length)
    (hq : (atts.get ⟨j, hj⟩).sparql = some s) :
    strContains s body := by
  induction atts generalizing i j body with
  | nil => cases hj
  | cons a rest ih =>
    unfold foldContext at h
    cases hca : contextForAttempt i a with
    | error e =>
      rw [hca] at h
      cases h
    | ok sa =>
      rw [hca] at h
      cases hfr : foldContext (i + 1) rest with
      | error e =>
        rw [hfr] at h
        cases h
      | ok sr =>
        rw [hfr] at h
        simp only [Except.bind, bind, Except.ok.injEq] at h
        subst h
        cases j with
        | zero =>
          exact strContains_append_right sr (contextForAttempt_contains hq hca)
        | succ j2 =>
          have hj2 : j2 < rest.length := by
            simpa [Nat.succ_lt_succ_iff] using hj
          have hq2 : (rest.get ⟨j2, hj2⟩).sparql = some s := hq
          exact strContains_append_left sa (ih hfr hj2 hq2)

/-- C8: for every question and list of prior attempts, whenever
`_build_context` returns a context text (it does not raise), that text
literally contains the query text of every prior attempt that generated a
query.  Inside the loop the context built for attempt `i > 0` is exactly
`_build_context` applied to attempts `0 .. i-1`, so it contains each of
their query texts. -/
theorem C8_context_contains_prior_queries (question : String)
    (atts : List AttemptRec) (ctx s : String) (j : Nat) (hj : j < atts.length)
    (hq : (atts.get ⟨j, hj⟩).sparql = some s)
    (hctx : _build_context question atts = .ok ctx) :
    strContains s ctx := by
  cases atts with
  | nil => cases hj
  | cons a rest =>
    unfold _build_context at hctx
    cases hf : foldContext 0 (a :: rest) with
    | error e =>
      rw [hf] at hctx
      cases hctx
    | ok body =>
      rw [hf] at hctx
      simp only [Except.bind, bind, Except.ok.injEq] at hctx
      subst hctx
      exact strContains_append_right contextTail
        (strContains_append_left _ (foldContext_contains hf hj hq))

/-- The two prior attempts of the C8 witness: a failed-validation attempt
and a zero-row attempt, with distinct query texts. -/
def c8Exec1 : ExecDict :=
  { success := true, count := some 2,
    results := [[(("a"), ("1"))], [(("a"), ("2"))]],
    error := none, query := some ("SELECT ?a") }

def c8Attempt1 : AttemptRec :=
  { sparql := some ("SELECT ?a"), reasoning := "first",
    execution := c8Exec1,
    answer := some ("two rows"),
    validation := some ⟨some false, some ("not specific"), none, some ("group by card")⟩ }

def c8Exec2 : ExecDict :=
  { success := true, count := some 0, results := [],
    error := none, query := some ("SELECT ?b") }

def c8Attempt2 : AttemptRec :=
  { sparql := some ("SELECT ?b"), reasoning := "second",
    execution := c8Exec2,
    answer := none, validation := none }

/-- The context the C8 witness builds for attempt index 2. -/
def c8Ctx : String :=
  (_build_context ("which cards counter spells") [c8Attempt1, c8Attempt2]).toOption.getD ("")

theorem C8_context_contains_prior_queries_witness :
    (0 : Nat) < [c8Attempt1, c8Attempt2].length ∧
    (1 : Nat) < [c8Attempt1, c8Attempt2].length ∧
    ([c8Attempt1, c8Attempt2].get ⟨0, by decide⟩).sparql = some ("SELECT ?a") ∧
    ([c8Attempt1, c8Attempt2].get ⟨1, by decide⟩).sparql = some ("SELECT ?b") ∧
    _build_context ("which cards counter spells") [c8Attempt1, c8Attempt2] = Except.ok c8Ctx ∧
    strContains ("SELECT ?a") c8Ctx ∧ strContains ("SELECT ?b") c8Ctx :=
  ⟨by decide, by decide, rfl, rfl, rfl,
    C8_context_contains_prior_queries ("which cards counter spells")
      [c8Attempt1, c8Attempt2] c8Ctx ("SELECT ?a") 0 (by decide) rfl rfl,
    C8_context_contains_prior_queries ("which cards counter spells")
      [c8Attempt1, c8Attempt2] c8Ctx ("SELECT ?b") 1 (by decide) rfl rfl⟩

/-- C9: each retry-preparation step is a pure function of the incoming
history (the source copies the list before appending, so the caller's list
is never mutated) and returns the input history followed by exactly two
appended role-tagged turns — one assistant turn, one user turn — so
conversation-context entries are append-only within a session.  The
feedback variant reads the execution's `count` and the verdict's `reason`,
present at both of its call sites. -/
theorem C9_retry_preparation_appends_two (last : AttemptRec) (v : VDict)
    (hist : List Msg) (c : Nat) (r : String)
    (hc : last.execution.count = some c) (hr : v.reason = some r) :
    (∃ a u : String, _prepare_retry_context last hist =
      hist ++ [{ role := "assistant", content := a }, { role := "user", content := u }]) ∧
    (∃ a u : String, _prepare_retry_with_feedback last v hist =
      .ok (hist ++ [{ role := "assistant", content := a }, { role := "user", content := u }])) := by
  constructor
  · exact ⟨_, _, rfl⟩
  · simp only [_prepare_retry_with_feedback, hc, hr]
    exact ⟨_, _, rfl⟩

theorem C9_retry_preparation_appends_two_witness :
    c8Attempt1.execution.count = some 2 ∧
    (⟨some false, some ("not specific"), none, some ("group by card")⟩ : VDict).reason =
      some ("not specific") ∧
    ((∃ a u : String, _prepare_retry_context c8Attempt1 [] =
      [] ++ [{ role := "assistant", content := a }, { role := "user", content := u }]) ∧
    (∃ a u : String, _prepare_retry_with_feedback c8Attempt1
        ⟨some false, some ("not specific"), none, some ("group by card")⟩ [] =
      .ok ([] ++ [{ role := "assistant", content := a }, { role := "user", content := u }]))) :=
  ⟨rfl, rfl,
    C9_retry_preparation_appends_two c8Attempt1
      ⟨some false, some ("not specific"), none, some ("group by card")⟩ [] 2
      ("not specific") rfl rfl⟩

/-- C10: the system prompt built for query generation embeds only the first
30 sampled predicate names: it is unchanged when the digest's predicate list
is truncated to its first 30 entries, and it literally contains the
comma-joined first-30 prefix.  The digest itself, computed once at
initialization, keeps every predicate the store returns — its only bound is
the `LIMIT 100` clause inside the sampling query text — so it may hold up to
100 predicates while the prompt embeds at most 30. -/
theorem C10_prompt_embeds_thirty_predicates (sch : Schema) :
    system_prompt sch =
      system_prompt { predicates := sch.predicates.take 30, sample_cards := sch.sample_cards } ∧
    strContains (String.intercalate (", ") (sch.predicates.take 30)) (system_prompt sch) ∧
    (∀ g : String → List (List String),
      (extract_schema g).predicates = (g pred_query).map (fun row => row.getD 0 (""))) ∧
    strContains ("LIMIT 100") pred_query := by
  refine ⟨?_, ?_, ?_, ?_⟩
  · simp [system_prompt, List.take_take]
  · unfold system_prompt
    exact strContains_append_right _ (strContains_append_right _
      (strContains_append_right _ (strContains_append_left _ (strContains_refl _))))
  · intro g
    rfl
  · refine ⟨("\n        SELECT DISTINCT ?predicate WHERE \x7b\n            ?s ?predicate ?o\n        \x7d ").data,
      ("\n        ").data, ?_⟩
    decide

theorem C7_executor_catches_faults_witness :
    c7Store ("bad query") = StoreResp.fault ("engine error") ∧
    execute_sparql c7Store ("bad query") =
      { success := false, count := none, results := [],
        error := some ("engine error"), query := some ("bad query") } ∧
    c7Store ("empty query") = StoreResp.rows [] ∧
    (execute_sparql c7Store ("empty query")).success = true ∧
    (execute_sparql c7Store ("empty query")).count = some 0 ∧
    (execute_sparql c7Store ("empty query")).results = ([] : List Row) :=
  ⟨rfl, (C7_executor_catches_faults c7Store ("bad query")).1 ("engine error") rfl,
    rfl,
    (C7_executor_catches_faults c7Store ("empty query")).2 [] rfl⟩

end MtgRdf
